import Mathlib

/-!
Verification of the AI Summarizer FastAPI backend (src/api.py).

The source is a single-file HTTP gateway: Firebase bearer-token
verification, use-case resolution from a JSON catalog, prompt templating
by literal substring replacement, a Cloudflare Workers AI inference call
with error normalization, MongoDB history persistence, owner-scoped
delete, and a composite health check.

This file shallowly embeds the request-handling functions of api.py as
pure Lean functions.  External effects (the Firebase verdict, the
Cloudflare HTTP response, the MongoDB document set) are passed in as
explicit outcome values; the handlers' control flow, status codes and
message strings are translated directly from the source.
-/

/-- Python truthiness of an optional string, as used by
`if not request.target_language:` in api.py: `None` and the empty string
are both falsy. -/
def pyFalsy : Option String → Bool
  | none => true
  | some s => s.isEmpty

/-- If `pat` is a leading segment of `s`, return the remainder of `s`,
otherwise `none`.  Helper for the scan of Python `str.replace`. -/
def chomp : List Char → List Char → Option (List Char)
  | [], s => some s
  | _ :: _, [] => none
  | p :: ps, c :: cs => if p = c then chomp ps cs else none

/-- One left-to-right scan of Python `str.replace` for the non-empty
pattern `p :: ps`: at each position, if the pattern matches, emit `r` and
continue after the match (the replacement text is not rescanned),
otherwise emit the character and move on.  `fuel` bounds the recursion;
every use supplies `fuel ≥ s.length`, which makes the `0, s => s` arm
unreachable. -/
def pyReplaceFuel (p : Char) (ps : List Char) (r : List Char) : Nat → List Char → List Char
  | _, [] => []
  | 0, s => s
  | Nat.succ fuel, c :: cs =>
    match chomp (p :: ps) (c :: cs) with
    | some tail => r ++ pyReplaceFuel p ps r fuel tail
    | none => c :: pyReplaceFuel p ps r fuel cs

/-- Python `s.replace(pat, r)` for a non-empty `pat`: every
non-overlapping occurrence of `pat` in `s`, found left to right, is
replaced by `r`.  (api.py only ever calls `.replace` with the non-empty
literal patterns `"{input_text}"` and `"{target_language}"`; the empty
pattern, on which CPython interleaves `r` between characters, does not
arise and is mapped to the identity here.) -/
def pyReplace (s pat r : String) : String :=
  match pat.data with
  | [] => s
  | p :: ps => String.mk (pyReplaceFuel p ps r.data s.data.length s.data)

/-- Does the non-empty pattern `p :: ps` occur as a contiguous segment of
`s`? -/
def occursB (p : Char) (ps : List Char) : List Char → Bool
  | [] => false
  | c :: cs => (chomp (p :: ps) (c :: cs)).isSome || occursB p ps cs

/-- Python `s.startswith(pre)`. -/
def pyStartsWith (s pre : String) : Bool :=
  (chomp pre.data s.data).isSome

/-- Does the scan for the non-empty pattern `p :: ps` fail to match at
every position that lies inside `a`, when the text continues with `t`
after `a`?  (A match attempt may look into `t`: the positions considered
are the suffixes of `a ++ t` that begin inside `a`.) -/
def scanMiss (p : Char) (ps : List Char) : List Char → List Char → Bool
  | [], _ => true
  | c :: cs, t => !(chomp (p :: ps) (c :: (cs ++ t))).isSome && scanMiss p ps cs t

-- ── Data model ──────────────────────────────────────────────────────────

/-- One entry of the `usecases` array of ai_summarizer_usecases.json, as
consumed by api.py (`USECASES` values). -/
structure UseCase where
  id : String
  name : String
  description : String
  output_format : String
  category : String
  prompt_template : String
  extra_params : List String
deriving DecidableEq

/-- The decoded Firebase ID token returned by
`firebase_auth.verify_id_token` — the fields api.py reads (`uid`,
`email`, `name`, `picture`). -/
structure DecodedToken where
  uid : String
  email : Option String
  name : Option String
  picture : Option String
deriving DecidableEq

/-- A FastAPI `HTTPException`: status code and detail message. -/
structure HTTPError where
  status_code : Nat
  detail : String
deriving DecidableEq

/-- The `AnalyzeRequest` body model of api.py. -/
structure AnalyzeRequest where
  text : String
  usecase_id : String
  target_language : Option String
deriving DecidableEq

/-- The `AnalyzeResponse` model of api.py. -/
structure AnalyzeResponse where
  usecase_id : String
  usecase_name : String
  result : String
  user_email : Option String
  history_id : Option String
deriving DecidableEq

/-- The MongoDB document inserted into `analysis_history` by
`analyze_text` (the `created_at` UTC timestamp is abstracted to a `Nat`
supplied by the caller). -/
structure HistoryDoc where
  user_uid : String
  user_email : Option String
  usecase_id : String
  usecase_name : String
  input_text : String
  result : String
  target_language : Option String
  created_at : Nat
deriving DecidableEq

/-- A stored `analysis_history` document as seen by the delete handler:
its generated object id (rendered as its 24-character hex string) and its
owner. -/
structure StoredRecord where
  oid : String
  user_uid : String
deriving DecidableEq

/-- How a route handler terminates: a successful payload, a raised
`HTTPException`, or an exception that no handler in api.py catches
(which FastAPI surfaces as a 500, not as a classified error). -/
inductive RouteResult (α : Type) where
  | ok (a : α)
  | httpError (e : HTTPError)
  | uncaught (msg : String)
deriving DecidableEq

-- ── Use-case catalog ────────────────────────────────────────────────────

/-- Insertion-ordered distinct keys, as Python dict construction
`{uc["id"]: uc for uc in usecases}` yields for `USECASES.keys()`:
a key keeps the position of its first occurrence. -/
def pyDictKeysAux (seen : List String) : List String → List String
  | [] => []
  | x :: xs => if x ∈ seen then pyDictKeysAux seen xs else x :: pyDictKeysAux (x :: seen) xs

/-- `list(USECASES.keys())` for a catalog loaded from the given
`usecases` array. -/
def usecaseKeys (ucs : List UseCase) : List String :=
  pyDictKeysAux [] (ucs.map (fun u => u.id))

/-- `USECASES.get(id)`: in the dict comprehension a later entry with the
same id overwrites an earlier one, so lookup returns the last matching
entry of the source array. -/
def usecasesGet (ucs : List UseCase) (id : String) : Option UseCase :=
  ucs.reverse.find? (fun u => u.id == id)

/-- Python `repr` of a list of strings, as produced by the f-string
`f"... {list(USECASES.keys())}"` in the unknown-use-case message. -/
def pyListRepr (xs : List String) : String :=
  "[" ++ String.intercalate ", " (xs.map (fun s => "\x27" ++ s ++ "\x27")) ++ "]"

-- ── call_llm ────────────────────────────────────────────────────────────

/-- The outcome of the `httpx` POST inside `call_llm`: either the
transport raised (timeout, connection failure, ...) or a response
arrived, with its HTTP status, the `success` flag and `errors` /
`result.response` contents of its JSON body, and its raw text. -/
inductive LlmOutcome where
  | transportError (msg : String)
  | response (status : Nat) (success : Bool) (errors : String) (body : String) (result : String)
deriving DecidableEq

/-- What `call_llm` produces for its caller. -/
inductive CallLlmResult where
  | ok (result : String)
  | httpError (e : HTTPError)
  | transportRaised (msg : String)
deriving DecidableEq

/-- `call_llm` of api.py.  The `httpx` POST is not wrapped in any
try/except, so a raised transport error propagates out of the function;
a non-200 status and a false `success` flag are each turned into an
`HTTPException(502, ...)`. -/
def call_llm : LlmOutcome → CallLlmResult
  | .transportError m => .transportRaised m
  | .response status success errors body result =>
    if status ≠ 200 then
      .httpError ⟨502, "Cloudflare API error (" ++ toString status ++ "): " ++ body⟩
    else if success = false then
      .httpError ⟨502, "Cloudflare AI errors: " ++ errors⟩
    else
      .ok result

-- ── /analyze ────────────────────────────────────────────────────────────

/-- The prompt-construction steps of `analyze_text`: substitute the input
text for `"{input_text}"`; then, when the use case lists
`"target_language"` among its extra parameters, require a truthy
(present, non-empty) caller-supplied target language and substitute it
for `"{target_language}"`. -/
def build_user_prompt (usecase : UseCase) (text : String) (target_language : Option String) :
    Except HTTPError String :=
  let user_prompt := pyReplace usecase.prompt_template "{input_text}" text
  if "target_language" ∈ usecase.extra_params then
    if pyFalsy target_language then
      .error ⟨400, "\x27target_language\x27 is required for this use case."⟩
    else
      .ok (pyReplace user_prompt "{target_language}" (target_language.getD ""))
  else
    .ok user_prompt

/-- Everything observable about one run of the `/analyze` handler: the
handler's result, how many times the inference endpoint was called, and
the history documents inserted. -/
structure AnalyzeOutcome where
  response : RouteResult AnalyzeResponse
  llmCalls : Nat
  inserted : List HistoryDoc
deriving DecidableEq

/-- The `analyze_text` handler of api.py, for an already authenticated
`user`.  `llm` is the outcome the inference endpoint would yield if
called, `newId` the object id MongoDB would assign to the inserted
document, `now` the write timestamp. -/
def analyze_text (ucs : List UseCase) (req : AnalyzeRequest) (user : DecodedToken)
    (llm : LlmOutcome) (newId : String) (now : Nat) : AnalyzeOutcome :=
  match usecasesGet ucs req.usecase_id with
  | none =>
    ⟨.httpError ⟨400, "Unknown usecase_id \x27" ++ req.usecase_id ++ "\x27. Available: " ++
        pyListRepr (usecaseKeys ucs)⟩, 0, []⟩
  | some usecase =>
    match build_user_prompt usecase req.text req.target_language with
    | .error e => ⟨.httpError e, 0, []⟩
    | .ok _user_prompt =>
      match call_llm llm with
      | .httpError e => ⟨.httpError e, 1, []⟩
      | .transportRaised m => ⟨.uncaught m, 1, []⟩
      | .ok result =>
        let doc : HistoryDoc :=
          ⟨user.uid, user.email, req.usecase_id, usecase.name, req.text, result,
            req.target_language, now⟩
        ⟨.ok ⟨req.usecase_id, usecase.name, result, user.email, some newId⟩, 1, [doc]⟩

/-- The `/analyze` route as deployed: FastAPI validates the request body
against the `AnalyzeRequest` pydantic model (`min_length=10`,
`max_length=GLOBAL_SETTINGS["max_input_length"]` characters on `text`)
before the handler runs; a validation failure is answered by FastAPI's
default `RequestValidationError` handler with HTTP status 422 and the
handler body — hence the inference call and the history insert — never
executes. -/
def analyze_route (max_input_length : Nat) (ucs : List UseCase) (req : AnalyzeRequest)
    (user : DecodedToken) (llm : LlmOutcome) (newId : String) (now : Nat) : AnalyzeOutcome :=
  if 10 ≤ req.text.length ∧ req.text.length ≤ max_input_length then
    analyze_text ucs req user llm newId now
  else
    ⟨.httpError ⟨422, "request validation error"⟩, 0, []⟩

-- ── verify_firebase_token ───────────────────────────────────────────────

/-- The outcome of `firebase_auth.verify_id_token`: a decoded token, or
one of the exception classes api.py distinguishes.  (In the Firebase
Admin SDK `ExpiredIdTokenError` and `RevokedIdTokenError` are subclasses
of `InvalidIdTokenError`; api.py lists its except clauses most-specific
first, so the four branches are mutually exclusive, which the disjoint
constructors reflect.) -/
inductive FirebaseOutcome where
  | ok (t : DecodedToken)
  | expired
  | revoked
  | invalid
  | otherError (msg : String)
deriving DecidableEq

/-- The `verify_firebase_token` dependency of api.py. -/
def verify_firebase_token : FirebaseOutcome → RouteResult DecodedToken
  | .ok t => .ok t
  | .expired => .httpError ⟨401, "Token has expired. Please sign in again."⟩
  | .revoked => .httpError ⟨401, "Token has been revoked. Please sign in again."⟩
  | .invalid => .httpError ⟨401, "Invalid authentication token."⟩
  | .otherError _ => .httpError ⟨401, "Could not verify credentials."⟩

-- ── DELETE /history/{id} ────────────────────────────────────────────────

/-- Is `c` a hexadecimal digit? -/
def isHexChar (c : Char) : Bool :=
  c.isDigit || ('a' ≤ c && c ≤ 'f') || ('A' ≤ c && c ≤ 'F')

/-- Does `bson.ObjectId(s)` accept the string `s`?  It does exactly when
`s` is a 24-character hexadecimal string; otherwise the constructor
raises `bson.errors.InvalidId`. -/
def isValidObjectId (s : String) : Bool :=
  s.length = 24 && s.data.all isHexChar

/-- MongoDB `delete_one` with the combined filter
`{"_id": oid, "user_uid": uid}`: remove the first document matching both
conditions and report how many (0 or 1) were deleted. -/
def delete_one (store : List StoredRecord) (oid uid : String) : Nat × List StoredRecord :=
  match store with
  | [] => (0, [])
  | rec :: rest =>
    if rec.oid = oid ∧ rec.user_uid = uid then
      (1, rest)
    else
      let r := delete_one rest oid uid
      (r.1, rec :: r.2)

/-- The `delete_history_item` handler of api.py.  `ObjectId(history_id)`
is evaluated first; on a malformed id it raises `bson.errors.InvalidId`,
which no code in api.py catches.  Otherwise a single `delete_one` with
the combined id-and-owner filter runs, and a zero deleted count — whether
the record does not exist or belongs to someone else — yields the one
404 response. -/
def delete_history_item (store : List StoredRecord) (history_id : String)
    (user : DecodedToken) : RouteResult String × List StoredRecord :=
  if isValidObjectId history_id then
    let r := delete_one store history_id user.uid
    if r.1 = 0 then
      (.httpError ⟨404, "History item not found."⟩, r.2)
    else
      (.ok "Deleted successfully.", r.2)
  else
    (.uncaught "bson.errors.InvalidId", store)

-- ── Health checks ───────────────────────────────────────────────────────

/-- The outcome of the MongoDB interactions inside `check_mongodb`:
ping answered `ok == 1.0` and index assurance succeeded; ping answered
something else; or some awaited call raised. -/
inductive MongoOutcome where
  | pingOk (indexes : List String)
  | pingFailed
  | error (msg : String)
deriving DecidableEq

/-- The `status` entry of the dict `check_mongodb` returns (the
`database` and `indexes` entries are diagnostic extras not read by the
aggregate). -/
def check_mongodb : MongoOutcome → String
  | .pingOk _ => "✅ connected"
  | .pingFailed => "❌ ping failed"
  | .error m => "❌ error: " ++ m

/-- The outcome of the probe POST inside `check_cloudflare`. -/
inductive CfOutcome where
  | response (status : Nat) (success : Bool)
  | error (msg : String)
deriving DecidableEq

/-- The `status` entry of the dict `check_cloudflare` returns. -/
def check_cloudflare : CfOutcome → String
  | .response status success =>
    if status = 200 ∧ success = true then "✅ connected"
    else "❌ API returned " ++ toString status
  | .error m => "❌ error: " ++ m

/-- The outcome of `firebase_admin.get_app()` inside `check_firebase`. -/
inductive FbOutcome where
  | ok (projectId : String)
  | error (msg : String)
deriving DecidableEq

/-- The `status` entry of the dict `check_firebase` returns. -/
def check_firebase : FbOutcome → String
  | .ok _ => "✅ initialized"
  | .error m => "❌ error: " ++ m

/-- The `status` entry of the dict `check_usecases` returns.  It never
reports failure: the function only counts the loaded catalog. -/
def check_usecases (ucs : List UseCase) : String :=
  "✅ " ++ toString (usecaseKeys ucs).length ++ " use cases loaded"

/-- The JSON object `health_check` returns: the aggregate plus the four
per-service status strings. -/
structure HealthReport where
  status : String
  firebase : String
  mongodb : String
  cloudflare_ai : String
  usecases : String
deriving DecidableEq

/-- The `/health` handler of api.py: run the four probes, aggregate
`all_ok` as "every status string starts with ✅", and report `"healthy"`
or `"degraded"` alongside each probe's own status. -/
def health_check (m : MongoOutcome) (c : CfOutcome) (f : FbOutcome)
    (ucs : List UseCase) : HealthReport :=
  let mongo := check_mongodb m
  let cf := check_cloudflare c
  let fb := check_firebase f
  let uc := check_usecases ucs
  let all_ok := [mongo, cf, fb, uc].all (fun s => pyStartsWith s "✅")
  ⟨if all_ok then "healthy" else "degraded", fb, mongo, cf, uc⟩

-- ── Lemmas about the replace scan ───────────────────────────────────────

theorem chomp_some_length : ∀ (pat s t : List Char), chomp pat s = some t →
    s.length = pat.length + t.length
  | [], s, t, h => by simp [chomp] at h; simp [h]
  | p :: ps, [], t, h => by simp [chomp] at h
  | p :: ps, c :: cs, t, h => by
    by_cases hpc : p = c
    · simp [chomp, hpc] at h
      have := chomp_some_length ps cs t h
      simp [List.length_cons, this]
      omega
    · simp [chomp, hpc] at h

theorem chomp_self_append : ∀ (pat b : List Char), chomp pat (pat ++ b) = some b
  | [], b => by simp [chomp]
  | p :: ps, b => by simp [chomp, chomp_self_append ps b]

theorem chomp_head_ne (p c : Char) (ps cs : List Char) (h : p ≠ c) :
    chomp (p :: ps) (c :: cs) = none := by
  simp [chomp, h]

theorem pyReplaceFuel_irrel (p : Char) (ps r : List Char) :
    ∀ (f : Nat) (s : List Char) (g : Nat), s.length ≤ f → s.length ≤ g →
      pyReplaceFuel p ps r f s = pyReplaceFuel p ps r g s := by
  intro f
  induction f with
  | zero =>
    intro s g hf _
    have : s = [] := by
      cases s with
      | nil => rfl
      | cons c cs => simp at hf
    subst this
    cases g <;> simp [pyReplaceFuel]
  | succ f ih =>
    intro s g hf hg
    cases s with
    | nil => cases g <;> simp [pyReplaceFuel]
    | cons c cs =>
      cases g with
      | zero => simp at hg
      | succ g' =>
        simp only [pyReplaceFuel]
        cases hch : chomp (p :: ps) (c :: cs) with
        | none =>
          simp only []
          have h1 : cs.length ≤ f := by simp at hf; omega
          have h2 : cs.length ≤ g' := by simp at hg; omega
          rw [ih cs g' h1 h2]
        | some tail =>
          simp only []
          have hlen := chomp_some_length (p :: ps) (c :: cs) tail hch
          have h1 : tail.length ≤ f := by simp at hlen hf; omega
          have h2 : tail.length ≤ g' := by simp at hlen hg; omega
          rw [ih tail g' h1 h2]

theorem pyReplaceFuel_not_occurs (p : Char) (ps r : List Char) :
    ∀ (s : List Char) (f : Nat), occursB p ps s = false → s.length ≤ f →
      pyReplaceFuel p ps r f s = s := by
  intro s
  induction s with
  | nil => intro f _ _; cases f <;> simp [pyReplaceFuel]
  | cons c cs ih =>
    intro f hocc hf
    cases f with
    | zero => simp at hf
    | succ f' =>
      simp only [occursB, Bool.or_eq_false_iff] at hocc
      have hch : chomp (p :: ps) (c :: cs) = none := by
        cases hch : chomp (p :: ps) (c :: cs) with
        | none => rfl
        | some t => rw [hch] at hocc; simp at hocc
      simp only [pyReplaceFuel, hch]
      have : cs.length ≤ f' := by simp at hf; omega
      rw [ih f' hocc.2 this]

theorem occursB_append_left (p : Char) (ps : List Char) :
    ∀ (a t : List Char), (∀ c ∈ a, c ≠ p) →
      occursB p ps (a ++ t) = occursB p ps t := by
  intro a
  induction a with
  | nil => intro t _; rfl
  | cons c a' ih =>
    intro t hc
    have hne : p ≠ c := fun h => (hc c (by simp)) h.symm
    cases ht : a' ++ t with
    | nil =>
      have ha' : a' = [] := by cases a' <;> simp_all
      have ht' : t = [] := by cases t <;> simp_all
      subst ha'; subst ht'
      simp [occursB, chomp, hne]
    | cons d ds =>
      show occursB p ps (c :: (a' ++ t)) = occursB p ps t
      rw [show occursB p ps (c :: (a' ++ t)) =
            ((chomp (p :: ps) (c :: (a' ++ t))).isSome || occursB p ps (a' ++ t)) from rfl]
      rw [chomp_head_ne p c ps (a' ++ t) hne]
      simp only [Option.isSome_none, Bool.false_or]
      exact ih t (fun x hx => hc x (by simp [hx]))

theorem occursB_of_no_head (p : Char) (ps : List Char) (s : List Char)
    (h : ∀ c ∈ s, c ≠ p) : occursB p ps s = false := by
  have := occursB_append_left p ps s [] h
  simpa using this

theorem occursB_cons_self (p : Char) (ps u : List Char) (h : chomp ps u = none) :
    occursB p ps (p :: u) = occursB p ps u := by
  show ((chomp (p :: ps) (p :: u)).isSome || occursB p ps u) = occursB p ps u
  have : chomp (p :: ps) (p :: u) = chomp ps u := by simp [chomp]
  rw [this, h]
  simp

theorem pyReplaceFuel_through (p : Char) (ps r : List Char) :
    ∀ (a : List Char) (b : List Char) (f : Nat), (∀ c ∈ a, c ≠ p) →
      (a ++ (p :: ps) ++ b).length ≤ f →
      pyReplaceFuel p ps r f (a ++ (p :: ps) ++ b) =
        a ++ r ++ pyReplaceFuel p ps r b.length b := by
  intro a
  induction a with
  | nil =>
    intro b f _ hf
    simp only [List.nil_append] at hf ⊢
    cases f with
    | zero => simp at hf
    | succ f' =>
      show pyReplaceFuel p ps r (f' + 1) (p :: (ps ++ b)) = r ++ pyReplaceFuel p ps r b.length b
      have hch : chomp (p :: ps) (p :: (ps ++ b)) = some b := by
        have := chomp_self_append (p :: ps) b
        simpa using this
      simp only [pyReplaceFuel, hch]
      have h1 : b.length ≤ f' := by simp at hf; omega
      rw [pyReplaceFuel_irrel p ps r f' b b.length h1 (Nat.le_refl _)]
  | cons c a' ih =>
    intro b f hc hf
    have hne : p ≠ c := fun h => (hc c (by simp)) h.symm
    cases f with
    | zero => simp at hf
    | succ f' =>
      show pyReplaceFuel p ps r (f' + 1) (c :: (a' ++ (p :: ps) ++ b)) =
        (c :: a') ++ r ++ pyReplaceFuel p ps r b.length b
      rw [show pyReplaceFuel p ps r (f' + 1) (c :: (a' ++ (p :: ps) ++ b)) =
            (match chomp (p :: ps) (c :: (a' ++ (p :: ps) ++ b)) with
             | some tail => r ++ pyReplaceFuel p ps r f' tail
             | none => c :: pyReplaceFuel p ps r f' (a' ++ (p :: ps) ++ b)) from rfl]
      rw [chomp_head_ne p c ps _ hne]
      simp only []
      have h1 : (a' ++ (p :: ps) ++ b).length ≤ f' := by simp at hf ⊢; omega
      rw [ih b f' (fun x hx => hc x (by simp [hx])) h1]
      simp

/-- `pyReplace` at a string with exactly one occurrence of the pattern:
if no character of `a` equals the pattern's head and the pattern does not
occur in `b`, the single occurrence between them is replaced and nothing
else changes. -/
theorem pyReplace_single (a b r pat : String) (p : Char) (ps : List Char)
    (hpat : pat.data = p :: ps)
    (ha : ∀ c ∈ a.data, c ≠ p)
    (hb : occursB p ps b.data = false) :
    pyReplace (a ++ pat ++ b) pat r = a ++ r ++ b := by
  have hdata : (a ++ pat ++ b).data = a.data ++ (p :: ps) ++ b.data := by
    simp [String.data_append, hpat]
  apply String.ext
  show (pyReplace (a ++ pat ++ b) pat r).data = (a ++ r ++ b).data
  rw [show pyReplace (a ++ pat ++ b) pat r =
        (match pat.data with
         | [] => a ++ pat ++ b
         | p' :: ps' => String.mk (pyReplaceFuel p' ps' r.data
             (a ++ pat ++ b).data.length (a ++ pat ++ b).data)) from rfl]
  rw [hpat]
  simp only []
  rw [hdata]
  rw [pyReplaceFuel_through p ps r.data a.data b.data _ ha (Nat.le_refl _)]
  rw [pyReplaceFuel_not_occurs p ps r.data b.data b.data.length hb (Nat.le_refl _)]
  simp [String.data_append]

theorem scanMiss_no_head (p : Char) (ps : List Char) :
    ∀ (a t : List Char), (∀ c ∈ a, c ≠ p) → scanMiss p ps a t = true
  | [], _, _ => rfl
  | c :: cs, t, h => by
    have hne : p ≠ c := fun he => (h c (by simp)) he.symm
    simp only [scanMiss, chomp_head_ne p c ps (cs ++ t) hne, Option.isSome_none,
      Bool.not_false, Bool.true_and]
    exact scanMiss_no_head p ps cs t (fun x hx => h x (by simp [hx]))

theorem scanMiss_append (p : Char) (ps : List Char) :
    ∀ (a1 a2 t : List Char),
      scanMiss p ps (a1 ++ a2) t = (scanMiss p ps a1 (a2 ++ t) && scanMiss p ps a2 t)
  | [], a2, t => by simp [scanMiss]
  | c :: cs, a2, t => by
    show scanMiss p ps (c :: (cs ++ a2)) t =
      (scanMiss p ps (c :: cs) (a2 ++ t) && scanMiss p ps a2 t)
    simp only [scanMiss]
    rw [List.append_assoc]
    rw [scanMiss_append p ps cs a2 t]
    rw [Bool.and_assoc]

/-- While scanning for `"{input_text}"`, the whole of a
`"{target_language}"` placeholder is passed over without a match: at its
opening brace the patterns disagree at the second character, and its
remaining characters contain no brace. -/
theorem scanMiss_target_placeholder (u : List Char) :
    scanMiss '{' ("input_text\x7d" : String).data
      ("{target_language}" : String).data u = true := by
  rw [show ("{target_language}" : String).data =
    '{' :: ("target_language\x7d" : String).data from by decide]
  simp only [scanMiss]
  have h1 : chomp ('{' :: ("input_text\x7d" : String).data)
      ('{' :: (("target_language\x7d" : String).data ++ u)) = none := by
    rw [show chomp ('{' :: ("input_text\x7d" : String).data)
          ('{' :: (("target_language\x7d" : String).data ++ u)) =
        chomp ("input_text\x7d" : String).data
          (("target_language\x7d" : String).data ++ u) from by simp [chomp]]
    rw [show ("input_text\x7d" : String).data =
      'i' :: ("nput_text\x7d" : String).data from by decide]
    rw [show ("target_language\x7d" : String).data =
      't' :: ("arget_language\x7d" : String).data from by decide]
    rw [List.cons_append]
    exact chomp_head_ne 'i' 't' _ _ (by decide)
  rw [h1]
  simp only [Option.isSome_none, Bool.not_false, Bool.true_and]
  exact scanMiss_no_head '{' ("input_text\x7d" : String).data
    ("target_language\x7d" : String).data u (by decide)

theorem pyReplaceFuel_through2 (p : Char) (ps r : List Char) :
    ∀ (a : List Char) (b : List Char) (f : Nat),
      scanMiss p ps a ((p :: ps) ++ b) = true →
      (a ++ (p :: ps) ++ b).length ≤ f →
      pyReplaceFuel p ps r f (a ++ (p :: ps) ++ b) =
        a ++ r ++ pyReplaceFuel p ps r b.length b := by
  intro a
  induction a with
  | nil =>
    intro b f _ hf
    simp only [List.nil_append] at hf ⊢
    cases f with
    | zero => simp at hf
    | succ f' =>
      show pyReplaceFuel p ps r (f' + 1) (p :: (ps ++ b)) = r ++ pyReplaceFuel p ps r b.length b
      have hch : chomp (p :: ps) (p :: (ps ++ b)) = some b := by
        have := chomp_self_append (p :: ps) b
        simpa using this
      simp only [pyReplaceFuel, hch]
      have h1 : b.length ≤ f' := by simp at hf; omega
      rw [pyReplaceFuel_irrel p ps r f' b b.length h1 (Nat.le_refl _)]
  | cons c a' ih =>
    intro b f hscan hf
    cases f with
    | zero => simp at hf
    | succ f' =>
      have hparts : ((!(chomp (p :: ps) (c :: (a' ++ ((p :: ps) ++ b)))).isSome) = true) ∧
          scanMiss p ps a' ((p :: ps) ++ b) = true := by
        have h := hscan
        simp only [scanMiss, Bool.and_eq_true] at h
        exact h
      have hch : chomp (p :: ps) (c :: (a' ++ (p :: ps) ++ b)) = none := by
        rw [List.append_assoc]
        cases hc2 : chomp (p :: ps) (c :: (a' ++ ((p :: ps) ++ b))) with
        | none => rfl
        | some tl =>
          have h1 := hparts.1
          rw [hc2] at h1
          simp at h1
      show pyReplaceFuel p ps r (f' + 1) (c :: (a' ++ (p :: ps) ++ b)) =
        (c :: a') ++ r ++ pyReplaceFuel p ps r b.length b
      rw [show pyReplaceFuel p ps r (f' + 1) (c :: (a' ++ (p :: ps) ++ b)) =
            (match chomp (p :: ps) (c :: (a' ++ (p :: ps) ++ b)) with
             | some tail => r ++ pyReplaceFuel p ps r f' tail
             | none => c :: pyReplaceFuel p ps r f' (a' ++ (p :: ps) ++ b)) from rfl]
      rw [hch]
      simp only []
      have h1 : (a' ++ (p :: ps) ++ b).length ≤ f' := by simp at hf ⊢; omega
      rw [ih b f' hparts.2 h1]
      simp

/-- `pyReplace` at a string with exactly one occurrence of the pattern,
generalized: the scan may pass over any prefix `a` at which the pattern
matches nowhere (even one containing the pattern's head character), and
the pattern does not occur in `b`; then the single occurrence between
them is replaced and nothing else changes. -/
theorem pyReplace_single2 (a b r pat : String) (p : Char) (ps : List Char)
    (hpat : pat.data = p :: ps)
    (ha : scanMiss p ps a.data ((p :: ps) ++ b.data) = true)
    (hb : occursB p ps b.data = false) :
    pyReplace (a ++ pat ++ b) pat r = a ++ r ++ b := by
  have hdata : (a ++ pat ++ b).data = a.data ++ (p :: ps) ++ b.data := by
    simp [String.data_append, hpat]
  apply String.ext
  show (pyReplace (a ++ pat ++ b) pat r).data = (a ++ r ++ b).data
  rw [show pyReplace (a ++ pat ++ b) pat r =
        (match pat.data with
         | [] => a ++ pat ++ b
         | p' :: ps' => String.mk (pyReplaceFuel p' ps' r.data
             (a ++ pat ++ b).data.length (a ++ pat ++ b).data)) from rfl]
  rw [hpat]
  simp only []
  rw [hdata]
  rw [pyReplaceFuel_through2 p ps r.data a.data b.data _ ha (Nat.le_refl _)]
  rw [pyReplaceFuel_not_occurs p ps r.data b.data b.data.length hb (Nat.le_refl _)]
  simp [String.data_append]

-- ── C1 ──────────────────────────────────────────────────────────────────

theorem delete_one_no_match (oid uid : String) :
    ∀ (store : List StoredRecord),
      (∀ r ∈ store, ¬(r.oid = oid ∧ r.user_uid = uid)) →
      delete_one store oid uid = (0, store)
  | [], _ => rfl
  | r :: rest, h => by
    have hr := h r (by simp)
    simp only [delete_one, if_neg hr]
    rw [delete_one_no_match oid uid rest (fun x hx => h x (by simp [hx]))]

/-- Claim C1: an authenticated DELETE /history/{id} whose id matches no
record owned by the caller — whether the record does not exist at all or
exists with a different owner — deletes nothing and yields the one
404 "History item not found." response; existence and ownership are one
combined delete predicate, so the two cases are indistinguishable from
the response. -/
theorem claim_C1_delete_not_found_indistinguishable (store : List StoredRecord)
    (user : DecodedToken) (history_id : String)
    (hvalid : isValidObjectId history_id = true)
    (hnone : ∀ r ∈ store, ¬(r.oid = history_id ∧ r.user_uid = user.uid)) :
    delete_history_item store history_id user =
      (.httpError ⟨404, "History item not found."⟩, store) := by
  simp only [delete_history_item, hvalid, if_true]
  rw [delete_one_no_match history_id user.uid store hnone]
  simp

/-- Witness for C1: a store holding one record owned by "alice"; "bob"
deleting that very record id gets the 404 and the store is untouched. -/
theorem claim_C1_witness :
    delete_history_item [⟨"0123456789abcdef01234567", "alice"⟩] "0123456789abcdef01234567"
      ⟨"bob", none, none, none⟩ =
    (.httpError ⟨404, "History item not found."⟩, [⟨"0123456789abcdef01234567", "alice"⟩]) :=
  claim_C1_delete_not_found_indistinguishable _ _ _ (by decide) (by decide)

-- ── C2 ──────────────────────────────────────────────────────────────────

/-- Claim C2: POST /analyze with a usecase_id that is not a key of the
catalog yields a 400 whose message lists the valid use-case ids, the
inference endpoint is called zero times, and no history record is
inserted. -/
theorem claim_C2_unknown_usecase (ucs : List UseCase) (req : AnalyzeRequest)
    (user : DecodedToken) (llm : LlmOutcome) (newId : String) (now : Nat)
    (h : usecasesGet ucs req.usecase_id = none) :
    analyze_text ucs req user llm newId now =
      ⟨.httpError ⟨400, "Unknown usecase_id \x27" ++ req.usecase_id ++ "\x27. Available: " ++
          pyListRepr (usecaseKeys ucs)⟩, 0, []⟩ := by
  simp [analyze_text, h]

/-- Witness for C2 at a one-entry catalog and the unknown id "nope". -/
theorem claim_C2_witness :
    analyze_text [⟨"summary", "Summary", "Summarize text", "bullet_points", "analysis",
        "Summarize: {input_text}", []⟩]
      ⟨"0123456789text", "nope", none⟩ ⟨"u1", some "u@example.com", none, none⟩
      (.response 200 true "" "" "OK") "689f1a2b3c4d5e6f7a8b9c0d" 0 =
    ⟨.httpError ⟨400, "Unknown usecase_id \x27" ++ "nope" ++ "\x27. Available: " ++
        pyListRepr (usecaseKeys [⟨"summary", "Summary", "Summarize text", "bullet_points",
          "analysis", "Summarize: {input_text}", []⟩])⟩, 0, []⟩ :=
  claim_C2_unknown_usecase _ _ _ _ _ _ (by decide)

-- ── C3 ──────────────────────────────────────────────────────────────────

/-- Claim C3: when the resolved use case declares target_language among
its extra parameters and the caller-supplied target_language is absent or
empty, /analyze fails with the 400 required-parameter error before any
inference call (zero calls) and nothing is inserted. -/
theorem claim_C3_missing_target_language (ucs : List UseCase) (req : AnalyzeRequest)
    (user : DecodedToken) (llm : LlmOutcome) (newId : String) (now : Nat) (uc : UseCase)
    (hget : usecasesGet ucs req.usecase_id = some uc)
    (hmem : "target_language" ∈ uc.extra_params)
    (hfalsy : pyFalsy req.target_language = true) :
    analyze_text ucs req user llm newId now =
      ⟨.httpError ⟨400, "\x27target_language\x27 is required for this use case."⟩, 0, []⟩ := by
  simp [analyze_text, hget, build_user_prompt, hmem, hfalsy]

/-- Witness for C3: a translation use case requiring target_language,
called without one. -/
theorem claim_C3_witness :
    analyze_text [⟨"translate", "Translate", "Translate text", "plain", "language",
        "Translate {input_text} to {target_language}", ["target_language"]⟩]
      ⟨"0123456789text", "translate", none⟩ ⟨"u1", some "u@example.com", none, none⟩
      (.response 200 true "" "" "OK") "689f1a2b3c4d5e6f7a8b9c0d" 0 =
    ⟨.httpError ⟨400, "\x27target_language\x27 is required for this use case."⟩, 0, []⟩ :=
  claim_C3_missing_target_language _ _ _ _ _ _
    ⟨"translate", "Translate", "Translate text", "plain", "language",
      "Translate {input_text} to {target_language}", ["target_language"]⟩
    (by decide) (by decide) (by decide)

-- ── C4 ──────────────────────────────────────────────────────────────────

/-- Is a `call_llm` outcome either a success or a classified
`HTTPException`, as opposed to a raw transport exception escaping the
helper? -/
def llmOutcomeClassified : CallLlmResult → Bool
  | .transportRaised _ => false
  | _ => true

/-- Counterexample to C4 as stated: a transport failure of the `httpx`
POST (here a read timeout) is not caught anywhere in `call_llm`, so the
caller sees the raw transport exception, not a classified 502. -/
theorem claim_C4_counterexample :
    llmOutcomeClassified (call_llm (.transportError "httpx.ReadTimeout: timed out")) = false ∧
    call_llm (.transportError "httpx.ReadTimeout: timed out") =
      .transportRaised "httpx.ReadTimeout: timed out" := by
  decide

/-- Claim C4 as amended: a non-200 transport status and a false
backend-reported success flag are each normalized into a 502 BadGateway
`HTTPException`, and a 200-with-success response yields the result text;
but a raw transport exception (timeout, connection error) is not caught
by `call_llm` and propagates to the caller unclassified. -/
theorem claim_C4_normalization (status : Nat) (success : Bool) (errors body result : String) :
    (status ≠ 200 →
      call_llm (.response status success errors body result) =
        .httpError ⟨502, "Cloudflare API error (" ++ toString status ++ "): " ++ body⟩) ∧
    (call_llm (.response 200 false errors body result) =
      .httpError ⟨502, "Cloudflare AI errors: " ++ errors⟩) ∧
    (call_llm (.response 200 true errors body result) = .ok result) ∧
    (∀ m, call_llm (.transportError m) = .transportRaised m) := by
  refine ⟨fun h => ?_, ?_, ?_, fun m => rfl⟩
  · simp [call_llm, h]
  · simp [call_llm]
  · simp [call_llm]

/-- Witness for C4 at a concrete 500 response. -/
theorem claim_C4_witness :
    call_llm (.response 500 true "" "upstream exploded" "") =
      .httpError ⟨502, "Cloudflare API error (" ++ toString 500 ++ "): " ++ "upstream exploded"⟩ :=
  (claim_C4_normalization 500 true "" "upstream exploded" "").1 (by decide)

-- ── C5 ──────────────────────────────────────────────────────────────────

/-- Counterexample to C5 as stated: POST /analyze with the 5-character
text "short" is rejected before the handler runs, but by FastAPI's
pydantic request validation, whose default status is 422 Unprocessable
Entity — not the 400 the claim states.  No record is inserted and the
inference endpoint is not called. -/
theorem claim_C5_counterexample :
    analyze_route 5000 [⟨"summary", "Summary", "Summarize text", "bullet_points", "analysis",
        "Summarize: {input_text}", []⟩]
      ⟨"short", "summary", none⟩ ⟨"u1", some "u@example.com", none, none⟩
      (.response 200 true "" "" "OK") "689f1a2b3c4d5e6f7a8b9c0d" 0 =
    ⟨.httpError ⟨422, "request validation error"⟩, 0, []⟩ ∧ (422 : Nat) ≠ 400 := by
  decide

/-- Claim C5 as amended: a POST /analyze whose text length lies outside
[10, max_input_length] characters is rejected by request validation with
status 422 (FastAPI's default for a pydantic validation failure, not
400), the handler never runs, the inference endpoint is called zero
times, and no record is inserted. -/
theorem claim_C5_length_validation (max_input_length : Nat) (ucs : List UseCase)
    (req : AnalyzeRequest) (user : DecodedToken) (llm : LlmOutcome) (newId : String) (now : Nat)
    (h : ¬(10 ≤ req.text.length ∧ req.text.length ≤ max_input_length)) :
    analyze_route max_input_length ucs req user llm newId now =
      ⟨.httpError ⟨422, "request validation error"⟩, 0, []⟩ := by
  simp only [analyze_route, if_neg h]

/-- Witness for C5 at the 5-character text "short". -/
theorem claim_C5_witness :
    analyze_route 5000 [] ⟨"short", "summary", none⟩ ⟨"u1", none, none, none⟩
      (.response 200 true "" "" "OK") "689f1a2b3c4d5e6f7a8b9c0d" 0 =
    ⟨.httpError ⟨422, "request validation error"⟩, 0, []⟩ :=
  claim_C5_length_validation 5000 [] ⟨"short", "summary", none⟩ _ _ _ _ (by decide)

-- ── C7 ──────────────────────────────────────────────────────────────────

/-- Counterexample to C7 as stated: the "summary" use case declares no
extra parameters, yet when the caller supplies target_language="French"
the inserted history document stores it — the insert writes
`request.target_language` unconditionally. -/
theorem claim_C7_counterexample :
    ((analyze_text [⟨"summary", "Summary", "Summarize text", "bullet_points", "analysis",
          "Summarize: {input_text}", []⟩]
        ⟨"0123456789text", "summary", some "French"⟩ ⟨"u1", some "u@example.com", none, none⟩
        (.response 200 true "" "" "OK") "689f1a2b3c4d5e6f7a8b9c0d" 0).inserted.map
      (fun d => d.target_language)) = [some "French"] ∧
    (some "French" : Option String) ≠ none := by
  decide

/-- Claim C7 as amended: on every successful /analyze call the persisted
record's target_language field is exactly the caller-supplied value
(None when absent), regardless of whether the resolved use case declares
target_language as required — the handler copies
`request.target_language` into the document unconditionally. -/
theorem claim_C7_stored_target_language (ucs : List UseCase) (req : AnalyzeRequest)
    (user : DecodedToken) (llm : LlmOutcome) (newId : String) (now : Nat) (uc : UseCase)
    (result : String)
    (hget : usecasesGet ucs req.usecase_id = some uc)
    (hok : ¬("target_language" ∈ uc.extra_params ∧ pyFalsy req.target_language = true))
    (hllm : call_llm llm = .ok result) :
    (analyze_text ucs req user llm newId now).inserted =
      [⟨user.uid, user.email, req.usecase_id, uc.name, req.text, result,
        req.target_language, now⟩] := by
  by_cases hmem : "target_language" ∈ uc.extra_params
  · have hfalsy : pyFalsy req.target_language = false := by
      cases hf : pyFalsy req.target_language with
      | false => rfl
      | true => exact absurd ⟨hmem, hf⟩ hok
    simp [analyze_text, hget, build_user_prompt, hmem, hfalsy, hllm]
  · simp [analyze_text, hget, build_user_prompt, hmem, hllm]

/-- Witness for C7: a use case without extra parameters, a supplied
target_language, and a successful inference. -/
theorem claim_C7_witness :
    (analyze_text [⟨"summary", "Summary", "Summarize text", "bullet_points", "analysis",
        "Summarize: {input_text}", []⟩]
      ⟨"0123456789text", "summary", some "German"⟩ ⟨"u1", some "u@example.com", none, none⟩
      (.response 200 true "" "" "OK") "689f1a2b3c4d5e6f7a8b9c0d" 7).inserted =
    [⟨"u1", some "u@example.com", "summary", "Summary", "0123456789text", "OK",
      some "German", 7⟩] :=
  claim_C7_stored_target_language _ _ _ _ _ _
    ⟨"summary", "Summary", "Summarize text", "bullet_points", "analysis",
      "Summarize: {input_text}", []⟩ "OK"
    (by decide) (by decide) (by decide)

-- ── C8 ──────────────────────────────────────────────────────────────────

/-- Claim C8: the composite /health status is "healthy" exactly when all
four probes report a ✅-prefixed status; and each probe's reported status
is its own check's output, depending only on that component's outcome, so
one probe's failure neither aborts nor alters the others. -/
theorem claim_C8_health_aggregate (m : MongoOutcome) (c : CfOutcome) (f : FbOutcome)
    (ucs : List UseCase) :
    ((health_check m c f ucs).status = "healthy" ↔
      (pyStartsWith (check_mongodb m) "✅" = true ∧
       pyStartsWith (check_cloudflare c) "✅" = true ∧
       pyStartsWith (check_firebase f) "✅" = true ∧
       pyStartsWith (check_usecases ucs) "✅" = true)) ∧
    (health_check m c f ucs).mongodb = check_mongodb m ∧
    (health_check m c f ucs).cloudflare_ai = check_cloudflare c ∧
    (health_check m c f ucs).firebase = check_firebase f ∧
    (health_check m c f ucs).usecases = check_usecases ucs := by
  refine ⟨?_, rfl, rfl, rfl, rfl⟩
  simp only [health_check]
  cases hm : pyStartsWith (check_mongodb m) "✅" <;>
    cases hc : pyStartsWith (check_cloudflare c) "✅" <;>
      cases hf : pyStartsWith (check_firebase f) "✅" <;>
        cases hu : pyStartsWith (check_usecases ucs) "✅" <;>
          simp [List.all, hm, hc, hf, hu]

-- ── C9 ──────────────────────────────────────────────────────────────────

/-- Claim C9: a valid bearer token yields the verified principal (whose
subject id, supplied non-empty by the identity authority, is returned
unchanged); expired, revoked, and structurally invalid tokens each yield
a 401 with its own remediation message, verification-service failure a
fourth distinctly-messaged 401, and the four messages are pairwise
distinct. -/
theorem claim_C9_token_classification :
    (∀ t : DecodedToken, t.uid ≠ "" → verify_firebase_token (.ok t) = .ok t) ∧
    verify_firebase_token .expired =
      .httpError ⟨401, "Token has expired. Please sign in again."⟩ ∧
    verify_firebase_token .revoked =
      .httpError ⟨401, "Token has been revoked. Please sign in again."⟩ ∧
    verify_firebase_token .invalid =
      .httpError ⟨401, "Invalid authentication token."⟩ ∧
    (∀ m, verify_firebase_token (.otherError m) =
      .httpError ⟨401, "Could not verify credentials."⟩) ∧
    (("Token has expired. Please sign in again." ≠
        "Token has been revoked. Please sign in again.") ∧
     ("Token has expired. Please sign in again." ≠ "Invalid authentication token.") ∧
     ("Token has expired. Please sign in again." ≠ "Could not verify credentials.") ∧
     ("Token has been revoked. Please sign in again." ≠ "Invalid authentication token.") ∧
     ("Token has been revoked. Please sign in again." ≠ "Could not verify credentials.") ∧
     ("Invalid authentication token." ≠ "Could not verify credentials.")) := by
  refine ⟨fun t _ => rfl, rfl, rfl, rfl, fun m => rfl, ?_⟩
  decide

/-- Witness for C9: a concrete valid token with a non-empty uid is passed
through. -/
theorem claim_C9_witness :
    verify_firebase_token (.ok ⟨"firebase-uid-1", some "u@example.com", none, none⟩) =
      .ok ⟨"firebase-uid-1", some "u@example.com", none, none⟩ :=
  claim_C9_token_classification.1 ⟨"firebase-uid-1", some "u@example.com", none, none⟩
    (by decide)

-- ── C10 ─────────────────────────────────────────────────────────────────

/-- Claim C10: DELETE /history/{id} with a path segment that is not a
valid 24-character-hex object id raises `bson.errors.InvalidId` out of
`ObjectId(history_id)`, which nothing in api.py catches — observably
different from the handled 404 not-found response, and nothing is
deleted. -/
theorem claim_C10_malformed_id_uncaught (store : List StoredRecord) (user : DecodedToken)
    (history_id : String)
    (h : isValidObjectId history_id = false) :
    delete_history_item store history_id user = (.uncaught "bson.errors.InvalidId", store) ∧
    (RouteResult.uncaught "bson.errors.InvalidId" ≠
      (.httpError ⟨404, "History item not found."⟩ : RouteResult String)) := by
  constructor
  · simp [delete_history_item, h]
  · decide

/-- Witness for C10 at a malformed id. -/
theorem claim_C10_witness :
    delete_history_item [⟨"0123456789abcdef01234567", "alice"⟩] "not-an-objectid"
      ⟨"alice", none, none, none⟩ =
      (.uncaught "bson.errors.InvalidId", [⟨"0123456789abcdef01234567", "alice"⟩]) ∧
    (RouteResult.uncaught "bson.errors.InvalidId" ≠
      (.httpError ⟨404, "History item not found."⟩ : RouteResult String)) :=
  claim_C10_malformed_id_uncaught [⟨"0123456789abcdef01234567", "alice"⟩]
    ⟨"alice", none, none, none⟩ "not-an-objectid" (by decide)

-- ── C6 ──────────────────────────────────────────────────────────────────

/-- Counterexample to C6 as stated: Python `str.replace` substitutes
every occurrence, not exactly one.  On a template containing the
`{target_language}` placeholder twice, prompt construction replaces both
occurrences; an exactly-once substitution would have left the second
placeholder in place. -/
theorem claim_C6_counterexample :
    build_user_prompt ⟨"translate", "Translate", "Translate text", "plain", "language",
        "{target_language} and {target_language}", ["target_language"]⟩
      "0123456789" (some "fr") = .ok "fr and fr" ∧
    (Except.ok "fr and fr" : Except HTTPError String) ≠ .ok "fr and {target_language}" := by
  constructor
  · rfl
  · intro h
    exact absurd (Except.ok.inj h) (by decide)


/-- Claim C6 as amended: prompt construction substitutes by literal
replace-all; when the template contains each placeholder exactly once —
in either order, with no other brace in the surrounding segments or in
the input text — and a non-empty target language is supplied, each
placeholder is replaced exactly once and nothing else changes. -/
theorem claim_C6_single_substitution (A B C T R : String) (uc : UseCase)
    (hA : ∀ c ∈ A.data, c ≠ '{') (hB : ∀ c ∈ B.data, c ≠ '{')
    (hC : ∀ c ∈ C.data, c ≠ '{') (hT : ∀ c ∈ T.data, c ≠ '{')
    (hmem : "target_language" ∈ uc.extra_params)
    (hR : R.isEmpty = false) :
    (uc.prompt_template = A ++ "{input_text}" ++ B ++ "{target_language}" ++ C →
      build_user_prompt uc T (some R) = .ok (A ++ T ++ B ++ R ++ C)) ∧
    (uc.prompt_template = A ++ "{target_language}" ++ B ++ "{input_text}" ++ C →
      build_user_prompt uc T (some R) = .ok (A ++ R ++ B ++ T ++ C)) := by
  have hfalsy : pyFalsy (some R) = false := by simp [pyFalsy, hR]
  have hgoal : build_user_prompt uc T (some R) =
      .ok (pyReplace (pyReplace uc.prompt_template "{input_text}" T)
        "{target_language}" R) := by
    simp [build_user_prompt, hmem, hfalsy]
  constructor
  · intro htpl
    have hb1 : occursB '{' ("input_text\x7d" : String).data
        ((B ++ "{target_language}" ++ C)).data = false := by
      rw [String.data_append, String.data_append, List.append_assoc]
      rw [occursB_append_left '{' ("input_text\x7d" : String).data B.data
        (("{target_language}" : String).data ++ C.data) hB]
      rw [show ("{target_language}" : String).data =
        '{' :: ("target_language\x7d" : String).data from by decide]
      rw [List.cons_append]
      rw [occursB_cons_self '{' ("input_text\x7d" : String).data
        (("target_language\x7d" : String).data ++ C.data) (by
          rw [show ("input_text\x7d" : String).data =
            'i' :: ("nput_text\x7d" : String).data from by decide]
          rw [show ("target_language\x7d" : String).data =
            't' :: ("arget_language\x7d" : String).data from by decide]
          rw [List.cons_append]
          exact chomp_head_ne 'i' 't' _ _ (by decide))]
      rw [occursB_append_left '{' ("input_text\x7d" : String).data
        ("target_language\x7d" : String).data C.data (by decide)]
      exact occursB_of_no_head '{' _ C.data hC
    have step1 : pyReplace (A ++ "{input_text}" ++ (B ++ "{target_language}" ++ C))
        "{input_text}" T = A ++ T ++ (B ++ "{target_language}" ++ C) :=
      pyReplace_single A (B ++ "{target_language}" ++ C) T "{input_text}" '{'
        ("input_text\x7d" : String).data (by decide) hA hb1
    have ha2 : ∀ c ∈ (A ++ T ++ B).data, c ≠ '{' := by
      intro c hc
      rw [String.data_append, String.data_append] at hc
      rcases List.mem_append.mp hc with h | h
      · rcases List.mem_append.mp h with h2 | h2
        · exact hA c h2
        · exact hT c h2
      · exact hB c h
    have step2 : pyReplace (A ++ T ++ B ++ "{target_language}" ++ C) "{target_language}" R =
        A ++ T ++ B ++ R ++ C :=
      pyReplace_single (A ++ T ++ B) C R "{target_language}" '{'
        ("target_language\x7d" : String).data (by decide) ha2
        (occursB_of_no_head '{' _ C.data hC)
    rw [hgoal, htpl]
    rw [show A ++ "{input_text}" ++ B ++ "{target_language}" ++ C =
      A ++ "{input_text}" ++ (B ++ "{target_language}" ++ C) from by
        simp [String.append_assoc]]
    rw [step1]
    rw [show A ++ T ++ (B ++ "{target_language}" ++ C) =
      A ++ T ++ B ++ "{target_language}" ++ C from by simp [String.append_assoc]]
    rw [step2]
  · intro htpl
    have hscan1 : scanMiss '{' ("input_text\x7d" : String).data
        (A ++ "{target_language}" ++ B).data
        (('{' :: ("input_text\x7d" : String).data) ++ C.data) = true := by
      rw [String.data_append, String.data_append, List.append_assoc]
      rw [scanMiss_append]
      rw [scanMiss_no_head '{' ("input_text\x7d" : String).data A.data _ hA]
      rw [Bool.true_and]
      rw [scanMiss_append]
      rw [scanMiss_target_placeholder]
      rw [Bool.true_and]
      exact scanMiss_no_head '{' ("input_text\x7d" : String).data B.data _ hB
    have step1 : pyReplace (A ++ "{target_language}" ++ B ++ "{input_text}" ++ C)
        "{input_text}" T = (A ++ "{target_language}" ++ B) ++ T ++ C :=
      pyReplace_single2 (A ++ "{target_language}" ++ B) C T "{input_text}" '{'
        ("input_text\x7d" : String).data (by decide) hscan1
        (occursB_of_no_head '{' _ C.data hC)
    have hb2 : ∀ c ∈ (B ++ T ++ C).data, c ≠ '{' := by
      intro c hc
      rw [String.data_append, String.data_append] at hc
      rcases List.mem_append.mp hc with h | h
      · rcases List.mem_append.mp h with h2 | h2
        · exact hB c h2
        · exact hT c h2
      · exact hC c h
    have step2 : pyReplace (A ++ "{target_language}" ++ (B ++ T ++ C)) "{target_language}" R =
        A ++ R ++ (B ++ T ++ C) :=
      pyReplace_single A (B ++ T ++ C) R "{target_language}" '{'
        ("target_language\x7d" : String).data (by decide) hA
        (occursB_of_no_head '{' _ (B ++ T ++ C).data hb2)
    rw [hgoal, htpl, step1]
    rw [show (A ++ "{target_language}" ++ B) ++ T ++ C =
      A ++ "{target_language}" ++ (B ++ T ++ C) from by simp [String.append_assoc]]
    rw [step2]
    rw [show A ++ R ++ (B ++ T ++ C) = A ++ R ++ B ++ T ++ C from by
      simp [String.append_assoc]]

/-- Witness for C6: concrete templates with one occurrence of each
placeholder, in both orders. -/
theorem claim_C6_witness :
    build_user_prompt ⟨"translate", "Translate", "Translate text", "plain", "language",
        "Summarize {input_text} into {target_language}.", ["target_language"]⟩
      "0123456789" (some "French") =
      .ok ("Summarize " ++ "0123456789" ++ " into " ++ "French" ++ ".") ∧
    build_user_prompt ⟨"translate2", "Translate", "Translate text", "plain", "language",
        "Into {target_language}: {input_text}!", ["target_language"]⟩
      "0123456789" (some "French") =
      .ok ("Into " ++ "French" ++ ": " ++ "0123456789" ++ "!") :=
  ⟨(claim_C6_single_substitution "Summarize " " into " "." "0123456789" "French"
      ⟨"translate", "Translate", "Translate text", "plain", "language",
        "Summarize {input_text} into {target_language}.", ["target_language"]⟩
      (by decide) (by decide) (by decide) (by decide) (by decide) (by decide)).1 (by decide),
   (claim_C6_single_substitution "Into " ": " "!" "0123456789" "French"
      ⟨"translate2", "Translate", "Translate text", "plain", "language",
        "Into {target_language}: {input_text}!", ["target_language"]⟩
      (by decide) (by decide) (by decide) (by decide) (by decide) (by decide)).2 (by decide)⟩
